import Mathlib

/-!
Verification of `custom_components/iliad_ita/sensor.py` (Iliad ITA sensor).

The development shallowly embeds the fetch/parse/cache pipeline of
`IliadDataCoordinator`:

* raw page text is a `List Char`;
* the two regular-expression searches of `parse_data` are embedded as
  executable scans specialised to the concrete patterns of the source
  (`re.search` tries every start position from the left, so each search is a
  left-to-right scan of single attempts);
* the BeautifulSoup document is abstracted as the raw text paired with the
  document-order list of elements the soup yields, each carrying its tag
  name, its whitespace-split class tokens and its `.text` content;
* `fetch_data` is a function of an environment giving the outcome of the two
  HTTP requests, instrumented with the list of requests attempted and with
  the kind of failure logged;
* `_async_update_data` threads the cached reading (`self.data`) explicitly
  and records whether `parse_data` was invoked.
-/

namespace IliadIta

/-- Raw text, as a list of characters. -/
abbrev Str := List Char

/-- `pat` matches at the head of `s` (the literal-by-literal check a regex
engine performs for a literal sub-pattern). -/
def startsWithL : Str → Str → Bool
  | [], _ => true
  | _ :: _, [] => false
  | a :: as, b :: bs => a == b && startsWithL as bs

/-- `pat` occurs somewhere inside `s`. -/
def containsSub (pat : Str) : Str → Bool
  | [] => startsWithL pat []
  | s@(_ :: cs) => startsWithL pat s || containsSub pat cs

/-! ### The balance regex

`re.search(r'<b class="red" data-cs-mask>([\d,.]+)â‚¬</b>', html)` — note
that the source file literally contains the three characters U+00E2 U+201A
U+00AC (the UTF-8 bytes of the euro sign decoded as Windows-1252), not the
euro sign U+20AC itself. -/

/-- The character class `[\d,.]` of the balance pattern.  (Python's `\d`
also matches non-ASCII decimal digits; the claims only involve ASCII.) -/
def balClass (c : Char) : Bool := c.isDigit || c == ',' || c == '.'

/-- The literal part of the balance pattern before the capture group. -/
def balLit1 : Str := "<b class=\"red\" data-cs-mask>".toList

/-- The literal part of the balance pattern after the capture group: the
mojibake sequence U+00E2 U+201A U+00AC followed by the closing tag. -/
def balLit2 : Str := "â‚¬</b>".toList

/-- One attempt of the balance pattern at the head of `s`.  `([\d,.]+)` is
greedy; since the following literal starts with U+00E2, which is not in the
class, backtracking can only succeed with the maximal run, so the attempt
succeeds exactly when the maximal nonempty run of class characters after the
first literal is immediately followed by the second literal. -/
def balanceAt (s : Str) : Option Str :=
  if startsWithL balLit1 s then
    let rest := s.drop balLit1.length
    let run := rest.takeWhile balClass
    if run.isEmpty then none
    else if startsWithL balLit2 (rest.drop run.length) then some run
    else none
  else none

/-- `re.search` of the balance pattern: try each start position from the
left, returning the first successful attempt's capture group. -/
def balanceSearchL : Str → Option Str
  | [] => balanceAt []
  | c :: cs =>
    match balanceAt (c :: cs) with
    | some g => some g
    | none => balanceSearchL cs

/-! ### The size regex

`re.compile(r"(\d+[\.,]?\d*)\s?(KB|MB|GB|TB)", re.IGNORECASE)`, used with
`.search` on each candidate element's text. -/

/-- The whitespace characters of `\s` (Python's `\s` on `str` also matches
other Unicode whitespace; the claims only involve the space character). -/
def isPyWs (c : Char) : Bool :=
  c == ' ' || c == '\t' || c == '\n' || c == '\r' || c == '\x0b' || c == '\x0c'

/-- The alternation `(KB|MB|GB|TB)` under `re.IGNORECASE`, matched at the
head of `s`; alternatives are tried left to right and the matched characters
are returned in their original case. -/
def unitAt : Str → Option Str
  | c1 :: c2 :: _ =>
    if c1.toLower == 'k' && c2.toLower == 'b' then some [c1, c2]
    else if c1.toLower == 'm' && c2.toLower == 'b' then some [c1, c2]
    else if c1.toLower == 'g' && c2.toLower == 'b' then some [c1, c2]
    else if c1.toLower == 't' && c2.toLower == 'b' then some [c1, c2]
    else none
  | _ => none

/-- One attempt of the size pattern at the head of `s`, returning
(group 1, group 2).  All greedy choices are forced: after `\d+` takes the
maximal digit run, `[\.,]?` can only take a following `.` or `,` (declining
it leaves a character none of `\d* \s?` or the unit can absorb), `\d*` takes
the maximal digit run (a digit cannot start `\s?` or the unit), `\s?` can
only take a following whitespace character, and shortening `\d+` moves the
dropped digits into `\d*` without changing the position the unit is tried
at.  So the backtracking search at this position succeeds iff this
maximal-munch attempt does, with these groups. -/
def sizeAt (s : Str) : Option (Str × Str) :=
  let d1 := s.takeWhile Char.isDigit
  if d1.isEmpty then none
  else
    let r1 := s.drop d1.length
    let sep : Str :=
      match r1 with
      | c :: _ => if c == '.' || c == ',' then [c] else []
      | [] => []
    let r2 := r1.drop sep.length
    let d2 := r2.takeWhile Char.isDigit
    let r3 := r2.drop d2.length
    let r4 :=
      match r3 with
      | c :: _ => if isPyWs c then r3.drop 1 else r3
      | [] => r3
    match unitAt r4 with
    | some u => some (d1 ++ sep ++ d2, u)
    | none => none

/-- `size_pattern.search`: try each start position from the left. -/
def sizeSearchL : Str → Option (Str × Str)
  | [] => sizeAt []
  | c :: cs =>
    match sizeAt (c :: cs) with
    | some m => some m
    | none => sizeSearchL cs

/-! ### The BeautifulSoup document -/

/-- One element of the parsed document: tag name, whitespace-split class
tokens, and `.text` content. -/
structure Element where
  tag : Str
  classes : List Str
  text : Str
deriving DecidableEq

/-- A fetched page: its raw text together with the document-order list of
elements BeautifulSoup's `html.parser` yields for it. -/
structure Doc where
  raw : Str
  elements : List Element
deriving DecidableEq

/-- The class tokens joined by single spaces. -/
def joinSpaces (cs : List Str) : Str := List.intercalate [' '] cs

/-- bs4 matching of a `class_` filter string against the multi-valued
`class` attribute: the string matches if it equals one of the class tokens,
or if it equals the whole token list joined by spaces. -/
def classMatch (s : Str) (cs : List Str) : Bool :=
  cs.contains s || s == joinSpaces cs

/-- `soup.find_all('span', class_=cls)`: the document-order list of `span`
elements whose class attribute matches `cls`. -/
def find_all_span (cls : Str) (d : Doc) : List Element :=
  d.elements.filter (fun e => e.tag == "span".toList && classMatch cls e.classes)

/-- `soup.find('span', class_=cls)`: the first such element, if any. -/
def find_span (cls : Str) (d : Doc) : Option Element :=
  (find_all_span cls d).head?

/-! ### parse_data -/

/-- `str.replace(',', '.')`. -/
def replaceCommas (s : Str) : Str := s.map (fun c => if c == ',' then '.' else c)

/-- `str.strip()` (restricted to the ASCII whitespace characters; Python
also strips other Unicode whitespace, which the claims do not involve). -/
def stripWs (s : Str) : Str :=
  ((s.dropWhile isPyWs).reverse.dropWhile isPyWs).reverse

/-- The `for span in soup.find_all('span', class_='red')` loop: return the
`search` result of the first element whose text matches, stopping there
(`break`); later elements are not inspected. -/
def usageLoop : List Element → Option (Str × Str)
  | [] => none
  | e :: es =>
    match sizeSearchL e.text with
    | some m => some m
    | none => usageLoop es

/-- The dictionary `self.data`: one snapshot of the extracted figures.
Every field is optional (`None` in the source). -/
structure Reading where
  balance : Option Str
  data_usage : Option Str
  data_usage_unit : Option Str
  remaining_data : Option Str
  remaining_data_unit : Option Str
deriving DecidableEq

/-- `IliadDataCoordinator.parse_data`.  The first argument is `self.data`
before the call: the method assigns a freshly built dictionary to
`self.data` and never reads the previous one, so the result ignores it. -/
def parse_data (_st : Reading) (d : Doc) : Reading :=
  let balance := balanceSearchL d.raw
  let usage := usageLoop (find_all_span ("red".toList) d)
  let data_usage := usage.map (fun m => replaceCommas m.1)
  let data_usage_unit := usage.map (fun m => m.2)
  let remaining_value := find_span ("big red".toList) d
  let remaining_unit := find_span ("small red".toList) d
  let remaining_data := remaining_value.map (fun e => replaceCommas (stripWs e.text))
  let remaining_data_unit := remaining_unit.map (fun e => stripWs e.text)
  ⟨balance, data_usage, data_usage_unit, remaining_data, remaining_data_unit⟩

/-! ### fetch_data and _async_update_data -/

/-- The outcome the environment gives one HTTP request: a response with a
status code and a body, or a raised transport-level exception. -/
inductive HttpResult where
  | resp (status : Nat) (body : Doc)
  | raised
deriving DecidableEq

/-- The environment of one refresh cycle: what `self._session.post` (login)
and `self._session.get` (account page) each return. -/
structure FetchEnv where
  loginResult : HttpResult
  pageResult : HttpResult
deriving DecidableEq

/-- The three `_LOGGER.error` sites of `fetch_data`, by failure kind. -/
inductive Failure where
  | auth
  | retrieval
  | transport
deriving DecidableEq

/-- The two HTTP requests `fetch_data` can issue. -/
inductive Request where
  | login
  | accountSummary
deriving DecidableEq

/-- What one call of `fetch_data` did: its return value (`None` or the page
body), the requests it attempted in order, and the failure it logged. -/
structure FetchOutcome where
  result : Option Doc
  attempts : List Request
  failure : Option Failure
deriving DecidableEq

/-- `IliadDataCoordinator.fetch_data`: POST the login form; on a non-200
status log and return `None` without requesting the account page; otherwise
GET the account page; on a non-200 status log and return `None`; otherwise
return the body.  Any exception raised by either request is caught by the
surrounding `try` and turned into a logged `None` return. -/
def fetch_data (env : FetchEnv) : FetchOutcome :=
  match env.loginResult with
  | .raised => ⟨none, [.login], some .transport⟩
  | .resp s _ =>
    if s ≠ 200 then ⟨none, [.login], some .auth⟩
    else
      match env.pageResult with
      | .raised => ⟨none, [.login, .accountSummary], some .transport⟩
      | .resp s2 body =>
        if s2 ≠ 200 then ⟨none, [.login, .accountSummary], some .retrieval⟩
        else ⟨some body, [.login, .accountSummary], none⟩

/-- Python truthiness of the fetched page text: `if html:` is false for
`None` and for the empty string. -/
def truthy (d : Doc) : Bool := !d.raw.isEmpty

/-- `IliadDataCoordinator._async_update_data`: run `fetch_data`; if the
result is truthy, parse it into `self.data`; return `self.data`.  The
second component records whether `parse_data` was invoked this cycle. -/
def async_update_data (env : FetchEnv) (st : Reading) : Reading × Bool :=
  match (fetch_data env).result with
  | none => (st, false)
  | some d => if truthy d then (parse_data st d, true) else (st, false)

/-- The initial `self.data = {}`: every lookup yields `None`. -/
def Reading.initial : Reading := ⟨none, none, none, none, none⟩

/-- The balance fragment with the euro sign as the real character U+20AC. -/
def fragEuro : Str := "<b class=\"red\" data-cs-mask>12,34€</b>".toList

/-- The balance fragment with the euro sign as the three-character mojibake
sequence that the source pattern actually contains. -/
def fragMoji : Str := "<b class=\"red\" data-cs-mask>12,34â‚¬</b>".toList

/-! ### Helper lemmas -/

lemma startsWithL_append (p r : Str) : startsWithL p (p ++ r) = true := by
  induction p with
  | nil => rfl
  | cons a as ih => simp [startsWithL, ih]

lemma takeWhile_append_sat (p : Char → Bool) (g r : Str)
    (hg : ∀ c ∈ g, p c = true) (hr : ∀ c, r.head? = some c → p c = false) :
    (g ++ r).takeWhile p = g := by
  induction g with
  | nil =>
    cases r with
    | nil => rfl
    | cons c cs =>
      have hc : p c = false := hr c rfl
      simp [List.takeWhile, hc]
  | cons a as ih =>
    have ha : p a = true := hg a (by simp)
    have ih' := ih (fun c hc => hg c (by simp [hc]))
    simp [List.takeWhile_cons, ha, ih']

lemma balanceAt_of_not_lit (s : Str) (h : startsWithL balLit1 s = false) :
    balanceAt s = none := by
  simp [balanceAt, h]

lemma balanceAt_append (g post : Str) (hne : g ≠ [])
    (hall : ∀ c ∈ g, balClass c = true) :
    balanceAt (balLit1 ++ (g ++ (balLit2 ++ post))) = some g := by
  have h1 : startsWithL balLit1 (balLit1 ++ (g ++ (balLit2 ++ post))) = true :=
    startsWithL_append _ _
  have hhead : ∀ c, (balLit2 ++ post).head? = some c → balClass c = false := by
    intro c hc
    have : (balLit2 ++ post).head? = some 'â' := rfl
    rw [this] at hc
    cases hc
    decide
  have h2 : (g ++ (balLit2 ++ post)).takeWhile balClass = g :=
    takeWhile_append_sat balClass g (balLit2 ++ post) hall hhead
  have h3 : g.isEmpty = false := by cases g with
    | nil => exact absurd rfl hne
    | cons a as => rfl
  simp only [balanceAt, h1, if_true, List.drop_left, h2, h3, Bool.false_eq_true,
    if_false, List.drop_left, startsWithL_append]

lemma balanceSearchL_of_at (s : Str) (g : Str) (h : balanceAt s = some g) :
    balanceSearchL s = some g := by
  cases s with
  | nil => simpa [balanceSearchL] using h
  | cons c cs => simp [balanceSearchL, h]

lemma balanceSearchL_skip (pre s : Str)
    (h : ∀ i, i < pre.length → startsWithL balLit1 ((pre ++ s).drop i) = false) :
    balanceSearchL (pre ++ s) = balanceSearchL s := by
  induction pre with
  | nil => rfl
  | cons c cs ih =>
    have h0 : startsWithL balLit1 (c :: (cs ++ s)) = false := by
      have := h 0 (by simp)
      simpa using this
    have hat : balanceAt (c :: (cs ++ s)) = none := balanceAt_of_not_lit _ h0
    have hrest : ∀ i, i < cs.length → startsWithL balLit1 ((cs ++ s).drop i) = false := by
      intro i hi
      have := h (i + 1) (by simpa using Nat.succ_lt_succ hi)
      simpa using this
    calc balanceSearchL ((c :: cs) ++ s)
        = balanceSearchL (c :: (cs ++ s)) := rfl
      _ = balanceSearchL (cs ++ s) := by simp [balanceSearchL, hat]
      _ = balanceSearchL s := ih hrest

lemma usageLoop_append (as rest : List Element)
    (h : ∀ a ∈ as, sizeSearchL a.text = none) :
    usageLoop (as ++ rest) = usageLoop rest := by
  induction as with
  | nil => rfl
  | cons a as ih =>
    have ha : sizeSearchL a.text = none := h a (by simp)
    simp only [List.cons_append, usageLoop, ha]
    exact ih (fun x hx => h x (by simp [hx]))

lemma parse_data_balance (st : Reading) (d : Doc) :
    (parse_data st d).balance = balanceSearchL d.raw := rfl

lemma parse_data_data_usage (st : Reading) (d : Doc) :
    (parse_data st d).data_usage =
      (usageLoop (find_all_span ("red".toList) d)).map (fun m => replaceCommas m.1) := rfl

lemma parse_data_data_usage_unit (st : Reading) (d : Doc) :
    (parse_data st d).data_usage_unit =
      (usageLoop (find_all_span ("red".toList) d)).map (fun m => m.2) := rfl

lemma parse_data_remaining_data (st : Reading) (d : Doc) :
    (parse_data st d).remaining_data =
      (find_span ("big red".toList) d).map (fun e => replaceCommas (stripWs e.text)) := rfl

lemma parse_data_remaining_data_unit (st : Reading) (d : Doc) :
    (parse_data st d).remaining_data_unit =
      (find_span ("small red".toList) d).map (fun e => stripWs e.text) := rfl

/-! ### Claim C1 -/

/-- Claim C1, as stated, is false on the code: a raw text consisting of
exactly the fragment `<b class="red" data-cs-mask>12,34€</b>` with the real
euro sign U+20AC yields `balance = None`, because the pattern in the source
contains the three-character mojibake sequence U+00E2 U+201A U+00AC instead
of the euro sign. -/
theorem claim1_counterexample :
    containsSub fragEuro fragEuro = true ∧
    (parse_data Reading.initial ⟨fragEuro, []⟩).balance = none ∧
    (parse_data Reading.initial ⟨fragEuro, []⟩).balance ≠ some ("12,34".toList) := by
  refine ⟨by decide, by decide, by decide⟩

/-- Claim C1 (amended): for every raw text containing the fragment
`<b class="red" data-cs-mask>12,34â‚¬</b>` — the euro sign written as the
three-character mojibake sequence the source pattern actually contains —
with no earlier occurrence of the literal `<b class="red" data-cs-mask>`,
`parse` returns `balance = "12,34"` exactly, decimal separator preserved. -/
theorem claim1_theorem (st : Reading) (es : List Element) (pre post : Str)
    (h : ∀ i, i < pre.length →
      startsWithL balLit1 ((pre ++ (fragMoji ++ post)).drop i) = false) :
    (parse_data st ⟨pre ++ (fragMoji ++ post), es⟩).balance = some ("12,34".toList) := by
  rw [parse_data_balance]
  rw [balanceSearchL_skip pre (fragMoji ++ post) h]
  have hfrag : fragMoji ++ post =
      balLit1 ++ (("12,34".toList) ++ (balLit2 ++ post)) := by
    have : fragMoji = balLit1 ++ (("12,34".toList) ++ balLit2) := by decide
    rw [this]
    simp [List.append_assoc]
  rw [hfrag]
  exact balanceSearchL_of_at _ _
    (balanceAt_append ("12,34".toList) post (by decide) (by decide))

/-- Witness for the amended claim C1 at `pre = []`, `post = []`. -/
theorem claim1_witness :
    (parse_data Reading.initial ⟨fragMoji, []⟩).balance = some ("12,34".toList) := by
  have := claim1_theorem Reading.initial [] [] []
    (fun i hi => absurd hi (by simp))
  simpa using this

/-! ### Claim C2 -/

/-- Claim C2: for every parsed document in which, among the `span` elements
whose class attribute matches `red`, in document order, every element before
`e` fails the size pattern, `e` has text `"5 GB"`, and some later element
has text `"10gb"`, `parse` returns `data_usage = "5"` (comma converted to
period) and `data_usage_unit = "GB"` (original case); the loop breaks at
`e`, so the later elements are not inspected and cannot affect the result
(the conclusion holds for every tail `bs`). -/
theorem claim2_theorem (st : Reading) (d : Doc) (as bs : List Element) (e e' : Element)
    (hsplit : find_all_span ("red".toList) d = as ++ e :: bs)
    (hskip : ∀ a ∈ as, sizeSearchL a.text = none)
    (htext : e.text = "5 GB".toList)
    (_hmem : e' ∈ bs) (_htext' : e'.text = "10gb".toList) :
    (parse_data st d).data_usage = some ("5".toList) ∧
    (parse_data st d).data_usage_unit = some ("GB".toList) := by
  have h5 : sizeSearchL ("5 GB".toList) = some ("5".toList, "GB".toList) := by decide
  have hloop : usageLoop (find_all_span ("red".toList) d) =
      some ("5".toList, "GB".toList) := by
    rw [hsplit, usageLoop_append as (e :: bs) hskip]
    simp only [usageLoop]
    rw [htext, h5]
  refine ⟨?_, ?_⟩
  · rw [parse_data_data_usage, hloop]
    rfl
  · rw [parse_data_data_usage_unit, hloop]
    rfl

/-- A document with two qualifying usage elements, `"5 GB"` then `"10gb"`. -/
def usageElem5 : Element := ⟨"span".toList, ["red".toList], "5 GB".toList⟩

/-- The second, later qualifying usage element. -/
def usageElem10 : Element := ⟨"span".toList, ["red".toList], "10gb".toList⟩

/-- The two usage elements in document order. -/
def usageDoc : Doc := ⟨[], [usageElem5, usageElem10]⟩

/-- Witness for claim C2 on the two-element document. -/
theorem claim2_witness :
    (parse_data Reading.initial usageDoc).data_usage = some ("5".toList) ∧
    (parse_data Reading.initial usageDoc).data_usage_unit = some ("GB".toList) :=
  claim2_theorem Reading.initial usageDoc [] [usageElem10] usageElem5 usageElem10
    (by decide) (by simp) (by decide) (by decide) (by decide)

/-! ### Claim C3 -/

/-- Claim C3: for every parsed document whose first `span` element matching
class `big red` has text `"3,5"` and whose first `span` element matching
class `small red` has text `" GB "`, `parse` returns
`remaining_data = "3.5"` (trimmed, comma converted to period) and
`remaining_data_unit = "GB"` (trimmed); and each of the two fields is
independently absent when its element is missing. -/
theorem claim3_theorem (st : Reading) (d : Doc) :
    (∀ eb eu : Element,
      find_span ("big red".toList) d = some eb → eb.text = "3,5".toList →
      find_span ("small red".toList) d = some eu → eu.text = " GB ".toList →
      (parse_data st d).remaining_data = some ("3.5".toList) ∧
      (parse_data st d).remaining_data_unit = some ("GB".toList)) ∧
    (find_span ("big red".toList) d = none →
      (parse_data st d).remaining_data = none) ∧
    (find_span ("small red".toList) d = none →
      (parse_data st d).remaining_data_unit = none) := by
  refine ⟨?_, ?_, ?_⟩
  · intro eb eu hb hbt hu hut
    refine ⟨?_, ?_⟩
    · rw [parse_data_remaining_data, hb, Option.map_some', hbt]
      decide
    · rw [parse_data_remaining_data_unit, hu, Option.map_some', hut]
      decide
  · intro hb
    rw [parse_data_remaining_data, hb]
    rfl
  · intro hu
    rw [parse_data_remaining_data_unit, hu]
    rfl

/-- The big-red value element of the remaining-data fragment. -/
def remBigElem : Element := ⟨"span".toList, ["big".toList, "red".toList], "3,5".toList⟩

/-- The small-red unit element of the remaining-data fragment. -/
def remSmallElem : Element := ⟨"span".toList, ["small".toList, "red".toList], " GB ".toList⟩

/-- A document with both remaining-data elements. -/
def remDocBoth : Doc := ⟨[], [remBigElem, remSmallElem]⟩

/-- A document with the big-red value element missing. -/
def remDocNoBig : Doc := ⟨[], [remSmallElem]⟩

/-- A document with the small-red unit element missing. -/
def remDocNoSmall : Doc := ⟨[], [remBigElem]⟩

/-- Witness for claim C3: both elements present, value element missing, and
unit element missing. -/
theorem claim3_witness :
    ((parse_data Reading.initial remDocBoth).remaining_data = some ("3.5".toList) ∧
      (parse_data Reading.initial remDocBoth).remaining_data_unit = some ("GB".toList)) ∧
    (parse_data Reading.initial remDocNoBig).remaining_data = none ∧
    (parse_data Reading.initial remDocNoSmall).remaining_data_unit = none :=
  ⟨(claim3_theorem Reading.initial remDocBoth).1 remBigElem remSmallElem
      (by decide) (by decide) (by decide) (by decide),
    (claim3_theorem Reading.initial remDocNoBig).2.1 (by decide),
    (claim3_theorem Reading.initial remDocNoSmall).2.2 (by decide)⟩

/-! ### Claims C4 and C5 -/

/-- Claim C4: for every cached Reading and every refresh cycle in which the
login request returns a non-200 status, the cycle logs an auth failure, does
not attempt the account-summary request, and leaves the cached Reading
unchanged (and `parse_data` is not invoked). -/
theorem claim4_theorem (env : FetchEnv) (st : Reading) (s : Nat) (b : Doc)
    (hlogin : env.loginResult = .resp s b) (hs : s ≠ 200) :
    (fetch_data env).failure = some .auth ∧
    Request.accountSummary ∉ (fetch_data env).attempts ∧
    async_update_data env st = (st, false) := by
  have hfetch : fetch_data env = ⟨none, [.login], some .auth⟩ := by
    simp [fetch_data, hlogin, hs]
  refine ⟨by rw [hfetch], by rw [hfetch]; simp, ?_⟩
  simp [async_update_data, hfetch]

/-- An environment whose login request returns status 403. -/
def envBadLogin : FetchEnv := ⟨.resp 403 ⟨[], []⟩, .resp 200 ⟨[], []⟩⟩

/-- Witness for claim C4 at a 403 login response. -/
theorem claim4_witness :
    (fetch_data envBadLogin).failure = some .auth ∧
    Request.accountSummary ∉ (fetch_data envBadLogin).attempts ∧
    async_update_data envBadLogin Reading.initial = (Reading.initial, false) :=
  claim4_theorem envBadLogin Reading.initial 403 ⟨[], []⟩ rfl (by decide)

/-- Claim C5: for every transport-level exception raised during fetch — at
the login request, or at the page request after a successful login — the
exception is caught inside `fetch_data` and normalized: `fetch_data`
returns the `None` failure value and logs a transport failure rather than
propagating the exception, and the cached Reading is untouched. -/
theorem claim5_theorem (env : FetchEnv) (st : Reading)
    (h : env.loginResult = .raised ∨
      ∃ b, env.loginResult = .resp 200 b ∧ env.pageResult = .raised) :
    (fetch_data env).result = none ∧
    (fetch_data env).failure = some .transport ∧
    async_update_data env st = (st, false) := by
  have hfetch : (fetch_data env).result = none ∧
      (fetch_data env).failure = some .transport := by
    rcases h with h | ⟨b, h1, h2⟩
    · simp [fetch_data, h]
    · simp [fetch_data, h1, h2]
  refine ⟨hfetch.1, hfetch.2, ?_⟩
  simp [async_update_data, hfetch.1]

/-- An environment whose login request raises a transport exception. -/
def envRaise : FetchEnv := ⟨.raised, .resp 200 ⟨[], []⟩⟩

/-- Witness for claim C5 at an exception-raising login request. -/
theorem claim5_witness :
    (fetch_data envRaise).result = none ∧
    (fetch_data envRaise).failure = some .transport ∧
    async_update_data envRaise Reading.initial = (Reading.initial, false) :=
  claim5_theorem envRaise Reading.initial (Or.inl rfl)

/-! ### Claim C6 -/

/-- Claim C6: on every successful refresh cycle with a truthy body, the
cached Reading is replaced wholesale by the newly parsed Reading — the
result does not depend on the previous cache — and every field whose
pattern is not found in the new text is absent in the new cache, whatever
the previous cycle's Reading held. -/
theorem claim6_theorem (env : FetchEnv) (st st' : Reading) (d : Doc)
    (hres : (fetch_data env).result = some d) (ht : truthy d = true) :
    (async_update_data env st).1 = parse_data st d ∧
    (async_update_data env st).1 = (async_update_data env st').1 ∧
    (balanceSearchL d.raw = none → (async_update_data env st).1.balance = none) ∧
    (usageLoop (find_all_span ("red".toList) d) = none →
      (async_update_data env st).1.data_usage = none ∧
      (async_update_data env st).1.data_usage_unit = none) ∧
    (find_span ("big red".toList) d = none →
      (async_update_data env st).1.remaining_data = none) ∧
    (find_span ("small red".toList) d = none →
      (async_update_data env st).1.remaining_data_unit = none) := by
  have hupd : ∀ r : Reading, async_update_data env r = (parse_data r d, true) := by
    intro r
    simp [async_update_data, hres, ht]
  have hfst : (async_update_data env st).1 = parse_data st d := by rw [hupd st]
  refine ⟨hfst, by rw [hupd st, hupd st']; exact rfl, ?_, ?_, ?_, ?_⟩
  · intro hb
    rw [hfst, parse_data_balance, hb]
  · intro hu
    rw [hfst, parse_data_data_usage, parse_data_data_usage_unit, hu]
    exact ⟨rfl, rfl⟩
  · intro hr
    rw [hfst, parse_data_remaining_data, hr]
    rfl
  · intro hr
    rw [hfst, parse_data_remaining_data_unit, hr]
    rfl

/-- A page whose text is nonempty but contains none of the patterns. -/
def blankDoc : Doc := ⟨['x'], []⟩

/-- An environment whose two requests succeed with the blank page. -/
def envBlankOk : FetchEnv := ⟨.resp 200 ⟨[], []⟩, .resp 200 blankDoc⟩

/-- A cached Reading in which every field holds a value. -/
def fullReading : Reading :=
  ⟨some ['1'], some ['2'], some ['M', 'B'], some ['3'], some ['G', 'B']⟩

/-- Witness for claim C6: a successful cycle over the blank page replaces a
fully populated cache, and the balance field becomes absent. -/
theorem claim6_witness :
    (async_update_data envBlankOk fullReading).1 = parse_data fullReading blankDoc ∧
    (async_update_data envBlankOk fullReading).1 =
      (async_update_data envBlankOk Reading.initial).1 ∧
    (async_update_data envBlankOk fullReading).1.balance = none :=
  ⟨(claim6_theorem envBlankOk fullReading Reading.initial blankDoc rfl rfl).1,
    (claim6_theorem envBlankOk fullReading Reading.initial blankDoc rfl rfl).2.1,
    (claim6_theorem envBlankOk fullReading Reading.initial blankDoc rfl rfl).2.2.1
      (by decide)⟩

/-! ### Claim C7 -/

/-- Claim C7: `parse` is a total function of the raw text (in this
embedding it is a Lean function into `Reading`, so it never raises); for
every text in which the balance pattern is not found it returns
`balance = None`; and a parse producing an all-absent Reading is still the
successful path — a truthy fetched body always replaces the cache with the
parse result — distinct from a fetch failure, which leaves the cache as it
was and invokes no parse. -/
theorem claim7_theorem (st : Reading) (d : Doc) :
    (balanceSearchL d.raw = none → (parse_data st d).balance = none) ∧
    (∀ env : FetchEnv, (fetch_data env).result = some d → truthy d = true →
      async_update_data env st = (parse_data st d, true)) ∧
    (∀ env : FetchEnv, (fetch_data env).result = none →
      async_update_data env st = (st, false)) := by
  refine ⟨?_, ?_, ?_⟩
  · intro hb
    rw [parse_data_balance, hb]
  · intro env hres ht
    simp [async_update_data, hres, ht]
  · intro env hres
    simp [async_update_data, hres]

/-- Witness for claim C7: the blank page parses with `balance = None`, its
all-absent parse still replaces the cache on a successful cycle, and a
failed fetch leaves the cache untouched. -/
theorem claim7_witness :
    (parse_data fullReading blankDoc).balance = none ∧
    async_update_data envBlankOk fullReading = (parse_data fullReading blankDoc, true) ∧
    async_update_data envBadLogin fullReading = (fullReading, false) :=
  ⟨(claim7_theorem fullReading blankDoc).1 (by decide),
    (claim7_theorem fullReading blankDoc).2.1 envBlankOk rfl rfl,
    (claim7_theorem fullReading blankDoc).2.2 envBadLogin rfl⟩

/-! ### Claim C8 -/

/-- Claim C8: `parse_data` is a pure function of the raw document — the
prior contents of `self.data` never influence the result — so running it
twice on the same input, in whatever cache state the first run left behind,
yields the identical Reading. -/
theorem claim8_theorem (d : Doc) (st st₁ st₂ : Reading) :
    parse_data st₁ d = parse_data st₂ d ∧
    parse_data (parse_data st d) d = parse_data st d :=
  ⟨rfl, rfl⟩

/-! ### Claim C10 -/

/-- Claim C10: when both HTTP requests return status 200 but the page body
is the empty string, `fetch_data` itself succeeds and returns the body, yet
the update treats the falsy body like a failure: `parse_data` is not
invoked and the cached Reading is left unchanged. -/
theorem claim10_theorem (env : FetchEnv) (st : Reading) (b d : Doc)
    (hlogin : env.loginResult = .resp 200 b) (hpage : env.pageResult = .resp 200 d)
    (hempty : d.raw = []) :
    (fetch_data env).result = some d ∧
    async_update_data env st = (st, false) := by
  have hres : (fetch_data env).result = some d := by
    simp [fetch_data, hlogin, hpage]
  have ht : truthy d = false := by
    simp [truthy, hempty]
  refine ⟨hres, ?_⟩
  simp [async_update_data, hres, ht]

/-- An environment whose two requests succeed, the page with empty body. -/
def envEmptyOk : FetchEnv := ⟨.resp 200 ⟨[], []⟩, .resp 200 ⟨[], []⟩⟩

/-- Witness for claim C10 at a successful fetch of an empty body. -/
theorem claim10_witness :
    (fetch_data envEmptyOk).result = some ⟨[], []⟩ ∧
    async_update_data envEmptyOk fullReading = (fullReading, false) :=
  claim10_theorem envEmptyOk fullReading ⟨[], []⟩ ⟨[], []⟩ rfl rfl rfl

end IliadIta
